import Mathlib

/-!
Shallow embedding of the libbtrfsutil Rust bindings (src/error.rs and
src/lib.rs) together with the qgroup-inheritance builder and the
subvolume enumeration protocol described by the repository's design
document. The external filesystem control channel (the `ffi` C calls)
is modelled as an abstract record of functions; paths are byte
sequences; machine integers are `Nat` (a `u32`/`u64` quantity is a
`Nat` together with an explicit bound where the width matters).
-/

set_option autoImplicit false

namespace LibBtrfsUtil

/-! ### The ffi error-code constants

Numeric values of the external `btrfs_util_error` enumeration, in its
declaration order (the order of the constants in `src/error.rs`,
starting from `OK = 0`). -/

namespace ffi

def BTRFS_UTIL_OK : Nat := 0
def BTRFS_UTIL_ERROR_STOP_ITERATION : Nat := 1
def BTRFS_UTIL_ERROR_NO_MEMORY : Nat := 2
def BTRFS_UTIL_ERROR_INVALID_ARGUMENT : Nat := 3
def BTRFS_UTIL_ERROR_NOT_BTRFS : Nat := 4
def BTRFS_UTIL_ERROR_NOT_SUBVOLUME : Nat := 5
def BTRFS_UTIL_ERROR_SUBVOLUME_NOT_FOUND : Nat := 6
def BTRFS_UTIL_ERROR_OPEN_FAILED : Nat := 7
def BTRFS_UTIL_ERROR_RMDIR_FAILED : Nat := 8
def BTRFS_UTIL_ERROR_UNLINK_FAILED : Nat := 9
def BTRFS_UTIL_ERROR_STAT_FAILED : Nat := 10
def BTRFS_UTIL_ERROR_STATFS_FAILED : Nat := 11
def BTRFS_UTIL_ERROR_SEARCH_FAILED : Nat := 12
def BTRFS_UTIL_ERROR_INO_LOOKUP_FAILED : Nat := 13
def BTRFS_UTIL_ERROR_SUBVOL_GETFLAGS_FAILED : Nat := 14
def BTRFS_UTIL_ERROR_SUBVOL_SETFLAGS_FAILED : Nat := 15
def BTRFS_UTIL_ERROR_SUBVOL_CREATE_FAILED : Nat := 16
def BTRFS_UTIL_ERROR_SNAP_CREATE_FAILED : Nat := 17
def BTRFS_UTIL_ERROR_SNAP_DESTROY_FAILED : Nat := 18
def BTRFS_UTIL_ERROR_DEFAULT_SUBVOL_FAILED : Nat := 19
def BTRFS_UTIL_ERROR_SYNC_FAILED : Nat := 20
def BTRFS_UTIL_ERROR_START_SYNC_FAILED : Nat := 21
def BTRFS_UTIL_ERROR_WAIT_SYNC_FAILED : Nat := 22
def BTRFS_UTIL_ERROR_GET_SUBVOL_INFO_FAILED : Nat := 23
def BTRFS_UTIL_ERROR_GET_SUBVOL_ROOTREF_FAILED : Nat := 24
def BTRFS_UTIL_ERROR_INO_LOOKUP_USER_FAILED : Nat := 25
def BTRFS_UTIL_ERROR_FS_INFO_FAILED : Nat := 26

/-- Flag bit of `BTRFS_UTIL_DELETE_SUBVOLUME_RECURSIVE` (bit 0). -/
def BTRFS_UTIL_DELETE_SUBVOLUME_RECURSIVE : Int := 1

/-- Flag bit of `BTRFS_UTIL_CREATE_SNAPSHOT_READ_ONLY` (bit 0). -/
def BTRFS_UTIL_CREATE_SNAPSHOT_READ_ONLY : Int := 1

/-- Flag bit of `BTRFS_UTIL_CREATE_SNAPSHOT_RECURSIVE` (bit 1). -/
def BTRFS_UTIL_CREATE_SNAPSHOT_RECURSIVE : Int := 2

end ffi

/-! ### The Error domain (src/error.rs) -/

/-- Rust `pub struct Error(u32)` — an opaque wrapper around a raw `u32`
control-channel status code.  The raw value is modelled as a `Nat`;
theorems about the 32-bit width carry an explicit `< 2 ^ 32` bound. -/
structure Error where
  code : Nat
deriving DecidableEq

namespace Error

def OK : Error := ⟨ffi.BTRFS_UTIL_OK⟩
def STOP_ITERATION : Error := ⟨ffi.BTRFS_UTIL_ERROR_STOP_ITERATION⟩
def NO_MEMORY : Error := ⟨ffi.BTRFS_UTIL_ERROR_NO_MEMORY⟩
def INVALID_ARGUMENT : Error := ⟨ffi.BTRFS_UTIL_ERROR_INVALID_ARGUMENT⟩
def NOT_BTRFS : Error := ⟨ffi.BTRFS_UTIL_ERROR_NOT_BTRFS⟩
def NOT_SUBVOLUME : Error := ⟨ffi.BTRFS_UTIL_ERROR_NOT_SUBVOLUME⟩
def SUBVOLUME_NOT_FOUND : Error := ⟨ffi.BTRFS_UTIL_ERROR_SUBVOLUME_NOT_FOUND⟩
def OPEN_FAILED : Error := ⟨ffi.BTRFS_UTIL_ERROR_OPEN_FAILED⟩
def RMDIR_FAILED : Error := ⟨ffi.BTRFS_UTIL_ERROR_RMDIR_FAILED⟩
def UNLINK_FAILED : Error := ⟨ffi.BTRFS_UTIL_ERROR_UNLINK_FAILED⟩
def STAT_FAILED : Error := ⟨ffi.BTRFS_UTIL_ERROR_STAT_FAILED⟩
def STATFS_FAILED : Error := ⟨ffi.BTRFS_UTIL_ERROR_STATFS_FAILED⟩
def SEARCH_FAILED : Error := ⟨ffi.BTRFS_UTIL_ERROR_SEARCH_FAILED⟩
def INO_LOOKUP_FAILED : Error := ⟨ffi.BTRFS_UTIL_ERROR_INO_LOOKUP_FAILED⟩
def SUBVOL_GETFLAGS_FAILED : Error := ⟨ffi.BTRFS_UTIL_ERROR_SUBVOL_GETFLAGS_FAILED⟩
def SUBVOL_SETFLAGS_FAILED : Error := ⟨ffi.BTRFS_UTIL_ERROR_SUBVOL_SETFLAGS_FAILED⟩
def SUBVOL_CREATE_FAILED : Error := ⟨ffi.BTRFS_UTIL_ERROR_SUBVOL_CREATE_FAILED⟩
def SNAP_CREATE_FAILED : Error := ⟨ffi.BTRFS_UTIL_ERROR_SNAP_CREATE_FAILED⟩
def SNAP_DESTROY_FAILED : Error := ⟨ffi.BTRFS_UTIL_ERROR_SNAP_DESTROY_FAILED⟩
def DEFAULT_SUBVOL_FAILED : Error := ⟨ffi.BTRFS_UTIL_ERROR_DEFAULT_SUBVOL_FAILED⟩
def SYNC_FAILED : Error := ⟨ffi.BTRFS_UTIL_ERROR_SYNC_FAILED⟩
def START_SYNC_FAILED : Error := ⟨ffi.BTRFS_UTIL_ERROR_START_SYNC_FAILED⟩
def WAIT_SYNC_FAILED : Error := ⟨ffi.BTRFS_UTIL_ERROR_WAIT_SYNC_FAILED⟩
def GET_SUBVOL_INFO_FAILED : Error := ⟨ffi.BTRFS_UTIL_ERROR_GET_SUBVOL_INFO_FAILED⟩
def GET_SUBVOL_ROOTREF_FAILED : Error := ⟨ffi.BTRFS_UTIL_ERROR_GET_SUBVOL_ROOTREF_FAILED⟩
def INO_LOOKUP_USER_FAILED : Error := ⟨ffi.BTRFS_UTIL_ERROR_INO_LOOKUP_USER_FAILED⟩
def FS_INFO_FAILED : Error := ⟨ffi.BTRFS_UTIL_ERROR_FS_INFO_FAILED⟩

/-- Rust `Error::is_unknown`: `self.0 > Self::FS_INFO_FAILED.0`. -/
def is_unknown (e : Error) : Bool :=
  decide (FS_INFO_FAILED.code < e.code)

/-- Rust `impl From<u32> for Error`: `Error(errcode)`. -/
def fromU32 (errcode : Nat) : Error :=
  ⟨errcode⟩

/-- Rust `impl From<Error> for u32`: `err.0`. -/
def toU32 (err : Error) : Nat :=
  err.code

/-- Rust `Error::new`, used by the wrappers in `src/lib.rs` to wrap the raw
ffi status code; like `From<u32>` it stores the code verbatim. -/
def new (errcode : Nat) : Error :=
  ⟨errcode⟩

end Error

/-! ### Paths and C-string construction -/

/-- A filesystem path as its native byte sequence (each byte a `Nat < 256`;
the bound is irrelevant to every claim, so bytes are plain `Nat`). -/
abbrev PathBytes := List Nat

/-- Rust `CString::new(bytes)`: fails (returns `none`) exactly when the byte
sequence contains an embedded terminator (NUL, byte 0); otherwise the
bytes are handed on unchanged (the implicit trailing terminator lives in
the C representation, not in the logical byte sequence).  The Rust
wrappers call `.unwrap()` on this result, so `none` at any use site below
models a panic of the whole operation. -/
def cstring_new (bytes : PathBytes) : Option PathBytes :=
  if 0 ∈ bytes then none else some bytes

/-! ### Qgroup inheritance builder

Modelled from the spec: the repository module `src/qgroup.rs` is not
present under `src/`; the builder is reconstructed from the design
document, which describes an append-only ordered collection of 64-bit
qgroup identifiers created empty, extended one id per `add` call in
caller-supplied order with duplicates retained, and serialized into a
single contiguous buffer of the count followed by the ids in insertion
order. -/
structure QgroupInherit where
  ids : List Nat
deriving DecidableEq

namespace QgroupInherit

/-- Modelled from the spec: `create() -> QgroupInherit` returns an empty
instance and never fails. -/
def create : QgroupInherit :=
  ⟨[]⟩

/-- Modelled from the spec: `add(self, qgroupId)` appends one identifier,
preserving insertion order (allocation failure of the underlying channel
primitive is outside the pure model). -/
def add (q : QgroupInherit) (qgroupId : Nat) : QgroupInherit :=
  ⟨q.ids ++ [qgroupId]⟩

/-- Modelled from the spec: `serialize(self)` produces the single
contiguous representation — the count followed by the consecutive ids. -/
def serialize (q : QgroupInherit) : Nat × List Nat :=
  (q.ids.length, q.ids)

end QgroupInherit

/-! ### Subvolume info record

Modelled from the spec: the repository module `src/subvol.rs` is not
present under `src/`; the record shape follows the design document —
identifiers, flags, UUID-like byte identifiers, transaction ids and
second/nanosecond timestamp pairs, all a verbatim copy of the control
channel's reply. -/
structure SubvolumeInfo where
  id : Nat
  parent_id : Nat
  dir_id : Nat
  flags : Nat
  uuid : List Nat
  parent_uuid : List Nat
  received_uuid : List Nat
  generation : Nat
  ctransid : Nat
  otransid : Nat
  stransid : Nat
  rtransid : Nat
  ctime : Nat × Nat
  otime : Nat × Nat
  stime : Nat × Nat
  rtime : Nat × Nat
deriving DecidableEq

/-- Rust `SubvolumeInfo::new()` — the zero-initialised out-record handed to the
control channel to be filled in. -/
def SubvolumeInfo.new : SubvolumeInfo :=
  ⟨0, 0, 0, 0, [], [], [], 0, 0, 0, 0, 0, (0, 0), (0, 0), (0, 0), (0, 0)⟩

/-! ### Flag sets -/

/-- Rust `DeleteSubvolumeFlags` bitflags over `c_int`. -/
structure DeleteSubvolumeFlags where
  bits : Int
deriving DecidableEq

/-- Rust `DeleteSubvolumeFlags::RECURSIVE`. -/
def DeleteSubvolumeFlags.RECURSIVE : DeleteSubvolumeFlags :=
  ⟨ffi.BTRFS_UTIL_DELETE_SUBVOLUME_RECURSIVE⟩

/-- Rust `CreateSubvolumeFlags` bitflags over `c_int` (no bits defined). -/
structure CreateSubvolumeFlags where
  bits : Int
deriving DecidableEq

/-- Rust `CreateSnapshotFlags` bitflags over `c_int`. -/
structure CreateSnapshotFlags where
  bits : Int
deriving DecidableEq

/-- Rust `CreateSnapshotFlags::READ_ONLY`. -/
def CreateSnapshotFlags.READ_ONLY : CreateSnapshotFlags :=
  ⟨ffi.BTRFS_UTIL_CREATE_SNAPSHOT_READ_ONLY⟩

/-- Rust `CreateSnapshotFlags::RECURSIVE`. -/
def CreateSnapshotFlags.RECURSIVE : CreateSnapshotFlags :=
  ⟨ffi.BTRFS_UTIL_CREATE_SNAPSHOT_RECURSIVE⟩

/-! ### The abstract filesystem control channel

Each field models one of the `ffi::btrfs_util_*` C calls used by
`src/lib.rs`: it receives the NUL-free path bytes (and arguments) and
returns the status code together with whatever the call writes through
its out-pointers.  The qgroup argument reaches the channel as the
serialized buffer (count, ids), `none` standing for the null pointer. -/
structure FfiChannel where
  btrfs_util_sync : PathBytes → Nat
  btrfs_util_is_subvolume : PathBytes → Nat
  btrfs_util_subvolume_id : PathBytes → Nat × Nat
  btrfs_util_subvolume_info : PathBytes → Nat → Nat × SubvolumeInfo
  btrfs_util_get_subvolume_read_only : PathBytes → Nat × Bool
  btrfs_util_set_subvolume_read_only : PathBytes → Bool → Nat
  btrfs_util_delete_subvolume : PathBytes → Int → Nat
  btrfs_util_create_subvolume : PathBytes → Int → Option (Nat × List Nat) → Nat
  btrfs_util_create_snapshot : PathBytes → PathBytes → Int → Option (Nat × List Nat) → Nat

/-! ### Top-level operations (src/lib.rs)

Each operation returns `Option (Except Error α)`: `none` models the
panic of `CString::new(...).unwrap()` on a path with an embedded NUL
byte (the control channel is never consulted in that case), and
`some r` the Rust function returning `r : Result`. -/

/-- Rust `pub const FS_TREE_OBJECTID: u64 = 5`. -/
def FS_TREE_OBJECTID : Nat := 5

/-- Rust `pub fn sync<P>(path: P) -> Result<(), Error>`. -/
def sync (ch : FfiChannel) (path : PathBytes) : Option (Except Error Unit) :=
  (cstring_new path).map fun cpath =>
    let errcode := ch.btrfs_util_sync cpath
    if errcode = ffi.BTRFS_UTIL_OK then Except.ok ()
    else Except.error (Error.new errcode)

/-- Rust `pub fn is_subvolume<P>(path: P) -> Result<bool, Error>`. -/
def is_subvolume (ch : FfiChannel) (path : PathBytes) : Option (Except Error Bool) :=
  (cstring_new path).map fun cpath =>
    let errcode := ch.btrfs_util_is_subvolume cpath
    if errcode = ffi.BTRFS_UTIL_OK then Except.ok true
    else if errcode = ffi.BTRFS_UTIL_ERROR_NOT_SUBVOLUME then Except.ok false
    else if errcode = ffi.BTRFS_UTIL_ERROR_NOT_BTRFS then Except.ok false
    else Except.error (Error.new errcode)

/-- Rust `pub fn subvolume_id<P>(path: P) -> Result<u64, Error>`. -/
def subvolume_id (ch : FfiChannel) (path : PathBytes) : Option (Except Error Nat) :=
  (cstring_new path).map fun cpath =>
    let r := ch.btrfs_util_subvolume_id cpath
    if r.1 = ffi.BTRFS_UTIL_OK then Except.ok r.2
    else Except.error (Error.new r.1)

/-- Rust `pub fn subvolume_info_with_id<P>(path: P, id: u64) -> Result<SubvolumeInfo, Error>`. -/
def subvolume_info_with_id (ch : FfiChannel) (path : PathBytes) (id : Nat) :
    Option (Except Error SubvolumeInfo) :=
  (cstring_new path).map fun cpath =>
    let r := ch.btrfs_util_subvolume_info cpath id
    if r.1 ≠ ffi.BTRFS_UTIL_OK then Except.error (Error.new r.1)
    else Except.ok r.2

/-- Rust `pub fn subvolume_info<P>(path: P) -> Result<SubvolumeInfo, Error>` —
defined in the source as `subvolume_info_with_id(path, 0)`. -/
def subvolume_info (ch : FfiChannel) (path : PathBytes) :
    Option (Except Error SubvolumeInfo) :=
  subvolume_info_with_id ch path 0

/-- Rust `pub fn subvolume_read_only<P>(path: P) -> Result<bool, Error>`. -/
def subvolume_read_only (ch : FfiChannel) (path : PathBytes) : Option (Except Error Bool) :=
  (cstring_new path).map fun cpath =>
    let r := ch.btrfs_util_get_subvolume_read_only cpath
    if r.1 = ffi.BTRFS_UTIL_OK then Except.ok r.2
    else Except.error (Error.new r.1)

/-- Rust `pub fn set_subvolume_read_only<P>(path: P, read_only: bool) -> Result<(), Error>`. -/
def set_subvolume_read_only (ch : FfiChannel) (path : PathBytes) (read_only : Bool) :
    Option (Except Error Unit) :=
  (cstring_new path).map fun cpath =>
    let errcode := ch.btrfs_util_set_subvolume_read_only cpath read_only
    if errcode = ffi.BTRFS_UTIL_OK then Except.ok ()
    else Except.error (Error.new errcode)

/-- Rust `pub fn delete_subvolume<P>(path: P, flags: DeleteSubvolumeFlags) -> Result<(), Error>`. -/
def delete_subvolume (ch : FfiChannel) (path : PathBytes) (flags : DeleteSubvolumeFlags) :
    Option (Except Error Unit) :=
  (cstring_new path).map fun cpath =>
    let errcode := ch.btrfs_util_delete_subvolume cpath flags.bits
    if errcode ≠ ffi.BTRFS_UTIL_OK then Except.error (Error.new errcode)
    else Except.ok ()

/-- Rust `pub fn create_subvolume<P>(path: P, flags, qgroup: Option<QgroupInherit>) -> Result<(), Error>`. -/
def create_subvolume (ch : FfiChannel) (path : PathBytes) (flags : CreateSubvolumeFlags)
    (qgroup : Option QgroupInherit) : Option (Except Error Unit) :=
  (cstring_new path).map fun cpath =>
    let cqgroup := qgroup.map QgroupInherit.serialize
    let errcode := ch.btrfs_util_create_subvolume cpath flags.bits cqgroup
    if errcode ≠ ffi.BTRFS_UTIL_OK then Except.error (Error.new errcode)
    else Except.ok ()

/-- Rust `pub fn create_snapshot<P, Q>(source: P, path: Q, flags, qgroup) -> Result<(), Error>` —
the source path's C string is built first, then the destination's. -/
def create_snapshot (ch : FfiChannel) (source : PathBytes) (path : PathBytes)
    (flags : CreateSnapshotFlags) (qgroup : Option QgroupInherit) :
    Option (Except Error Unit) := do
  let csource ← cstring_new source
  let cpath ← cstring_new path
  let cqgroup := qgroup.map QgroupInherit.serialize
  let errcode := ch.btrfs_util_create_snapshot csource cpath flags.bits cqgroup
  if errcode ≠ ffi.BTRFS_UTIL_OK then pure (Except.error (Error.new errcode))
  else pure (Except.ok ())

/-! ### Subvolume enumeration / search protocol

Modelled from the spec: the repository module `src/subvol.rs` is not
present under `src/`; the enumeration state machine is reconstructed
from the design document (§4.4): a session issues tree-search requests
against the control channel, decodes each reply batch into
(subvolume id, path) records, treats an empty reply or a
`STOP_ITERATION` status as normal exhaustion, and on any other status
surfaces that error exactly once and becomes terminal. -/

/-- A (subvolume id, path bytes) pair produced by one enumeration step. -/
structure SubvolumePathRecord where
  id : Nat
  path : PathBytes
deriving DecidableEq

/-- One scripted control-channel reply to a tree-search request: either a
batch of decoded records with an OK status, or a non-OK status code. -/
inductive BatchReply where
  | records (recs : List SubvolumePathRecord)
  | failure (errcode : Nat)
deriving DecidableEq

/-- The modes of an enumeration session: `active` (issuing requests),
`exhausted` (terminal, normal end), `failed` (terminal, after the one
call that surfaced the error). -/
inductive IterMode where
  | active
  | exhausted
  | failed
deriving DecidableEq

/-- An enumeration session over a scripted channel.  `pending` holds the
records already decoded from the last reply and not yet handed out;
`script` is the channel's remaining replies (the cursor's monotone
advancement is modelled by consuming the script front to back). -/
structure SubvolumeIterator where
  pending : List SubvolumePathRecord
  script : List BatchReply
  mode : IterMode
deriving DecidableEq

namespace SubvolumeIterator

/-- A fresh session: cursor at the tree origin, nothing buffered. -/
def start (script : List BatchReply) : SubvolumeIterator :=
  ⟨[], script, .active⟩

/-- One `next()` pull.  Returns the yielded element (`none` =
end-of-sequence, `some (Except.ok r)` = a record, `some (Except.error e)`
= the surfaced error) together with the successor state.  Terminal modes
yield nothing further; an empty reply or `STOP_ITERATION` exhausts the
session; any other non-OK status is surfaced on this call only and the
session becomes `failed`. -/
def next (it : SubvolumeIterator) : Option (Except Error SubvolumePathRecord) × SubvolumeIterator :=
  match it.mode with
  | .exhausted => (none, it)
  | .failed => (none, it)
  | .active =>
    match it.pending with
    | r :: rs => (some (Except.ok r), ⟨rs, it.script, .active⟩)
    | [] =>
      match it.script with
      | [] => (none, ⟨[], [], .exhausted⟩)
      | .records [] :: rest => (none, ⟨[], rest, .exhausted⟩)
      | .records (r :: rs) :: rest => (some (Except.ok r), ⟨rs, rest, .active⟩)
      | .failure c :: rest =>
        if c = ffi.BTRFS_UTIL_ERROR_STOP_ITERATION then (none, ⟨[], rest, .exhausted⟩)
        else (some (Except.error (Error.new c)), ⟨[], rest, .failed⟩)

end SubvolumeIterator

/-- The lazy pull form: the sequence of the first `fuel` pull results of
a session. -/
def pulls : Nat → SubvolumeIterator → List (Option (Except Error SubvolumePathRecord))
  | 0, _ => []
  | fuel + 1, it => (it.next).1 :: pulls fuel (it.next).2

/-- Eager-drain worker: pulls until end-of-sequence, collecting records in
order; on a surfaced error it reports that error and discards the partial
collection.  `none` means the fuel ran out before the session terminated
(theorems always supply sufficient fuel). -/
def drainAux : Nat → SubvolumeIterator → List SubvolumePathRecord →
    Option (Except Error (List SubvolumePathRecord))
  | 0, _, _ => none
  | fuel + 1, it, acc =>
    match it.next with
    | (none, _) => some (Except.ok acc)
    | (some (Except.ok r), it2) => drainAux fuel it2 (acc ++ [r])
    | (some (Except.error e), _) => some (Except.error e)

/-- The eager drain form (the "list subvolumes under a path" convenience
operation): consume a whole fresh session into an ordered list, or report
the first surfaced error with nothing collected. -/
def drain (fuel : Nat) (script : List BatchReply) :
    Option (Except Error (List SubvolumePathRecord)) :=
  drainAux fuel (SubvolumeIterator.start script) []

/-- Fuel sufficient to hand out every record of the given batches: one
pull per record. -/
def fuelOf (batches : List (List SubvolumePathRecord)) : Nat :=
  (batches.map List.length).sum

/-! ### Concrete channels used by witnesses and counterexamples -/

/-- A channel whose every call reports the fixed status code `c` (and
writes zeroed payloads). -/
def constChannel (c : Nat) : FfiChannel where
  btrfs_util_sync := fun _ => c
  btrfs_util_is_subvolume := fun _ => c
  btrfs_util_subvolume_id := fun _ => (c, 7)
  btrfs_util_subvolume_info := fun _ _ => (c, SubvolumeInfo.new)
  btrfs_util_get_subvolume_read_only := fun _ => (c, true)
  btrfs_util_set_subvolume_read_only := fun _ _ => c
  btrfs_util_delete_subvolume := fun _ _ => c
  btrfs_util_create_subvolume := fun _ _ _ => c
  btrfs_util_create_snapshot := fun _ _ _ _ => c

/-- Concrete record (subvolume 1, path "a") used by witnesses. -/
def egRecA : SubvolumePathRecord := ⟨1, [97]⟩

/-- Concrete record (subvolume 2, path "b") used by witnesses. -/
def egRecB : SubvolumePathRecord := ⟨2, [98]⟩

/-- Concrete record (subvolume 3, path "c") used by witnesses. -/
def egRecC : SubvolumePathRecord := ⟨3, [99]⟩

/-! ## Theorems -/

/-- C4: for every 32-bit error code `c`, `is_unknown` on the `Error`
constructed from `c` is false exactly when `c` is at most the highest
statically known constant (`FS_INFO_FAILED`), and true exactly when `c`
exceeds it. -/
theorem error_is_unknown_iff (c : Nat) (_h : c < 2 ^ 32) :
    ((Error.fromU32 c).is_unknown = false ↔ c ≤ Error.FS_INFO_FAILED.code) ∧
    ((Error.fromU32 c).is_unknown = true ↔ Error.FS_INFO_FAILED.code < c) := by
  constructor <;>
    simp [Error.is_unknown, Error.fromU32, Error.FS_INFO_FAILED,
      ffi.BTRFS_UTIL_ERROR_FS_INFO_FAILED]

/-- Witness for C4: instantiated at the boundary codes 26 and 27. -/
theorem error_is_unknown_iff_witness :
    (((Error.fromU32 26).is_unknown = false ↔ 26 ≤ Error.FS_INFO_FAILED.code) ∧
      ((Error.fromU32 26).is_unknown = true ↔ Error.FS_INFO_FAILED.code < 26)) ∧
    (((Error.fromU32 27).is_unknown = false ↔ 27 ≤ Error.FS_INFO_FAILED.code) ∧
      ((Error.fromU32 27).is_unknown = true ↔ Error.FS_INFO_FAILED.code < 27)) :=
  ⟨error_is_unknown_iff 26 (by norm_num), error_is_unknown_iff 27 (by norm_num)⟩

/-- C10: construction of an `Error` from a raw code is total, the two
`From` conversions are mutually inverse on 32-bit codes, and two `Error`
values are equal exactly when their raw codes are equal. -/
theorem error_code_conversions :
    (∀ c : Nat, c < 2 ^ 32 → Error.toU32 (Error.fromU32 c) = c) ∧
    (∀ e : Error, e.code < 2 ^ 32 → Error.fromU32 (Error.toU32 e) = e) ∧
    (∀ e1 e2 : Error, e1 = e2 ↔ Error.toU32 e1 = Error.toU32 e2) := by
  refine ⟨fun c _ => rfl, fun e _ => rfl, fun e1 e2 => ?_⟩
  constructor
  · intro h
    rw [h]
  · intro h
    cases e1
    cases e2
    simpa [Error.toU32] using h

/-- Witness for C10: the conversions instantiated at concrete codes. -/
theorem error_code_conversions_witness :
    Error.toU32 (Error.fromU32 11) = 11 ∧
    Error.fromU32 (Error.toU32 (Error.mk 9)) = Error.mk 9 ∧
    (Error.mk 3 = Error.mk 4 ↔ Error.toU32 (Error.mk 3) = Error.toU32 (Error.mk 4)) :=
  ⟨error_code_conversions.1 11 (by norm_num),
    error_code_conversions.2.1 ⟨9⟩ (by norm_num),
    error_code_conversions.2.2 ⟨3⟩ ⟨4⟩⟩

/-- C9: `subvolume_info path` returns exactly the same result as
`subvolume_info_with_id path 0` — the source defines the former as the
latter applied at id 0. -/
theorem subvolume_info_eq_with_id_zero (ch : FfiChannel) (path : PathBytes) :
    subvolume_info ch path = subvolume_info_with_id ch path 0 :=
  rfl

/-- Helper: folding `add` over a list of ids appends them, in order, to
the builder's collection. -/
theorem qgroup_foldl_add_ids (ids : List Nat) (q : QgroupInherit) :
    (ids.foldl QgroupInherit.add q).ids = q.ids ++ ids := by
  induction ids generalizing q with
  | nil => simp
  | cons a as ih => simp [QgroupInherit.add, ih]

/-- C5: for every finite sequence of `add` calls on a fresh builder, the
serialized buffer is exactly the added ids in insertion order, with the
count equal to the number of `add` calls; duplicates are retained. -/
theorem qgroup_serialize_insertion_order (ids : List Nat) :
    QgroupInherit.serialize (ids.foldl QgroupInherit.add QgroupInherit.create) =
      (ids.length, ids) := by
  simp [QgroupInherit.serialize, QgroupInherit.create, qgroup_foldl_add_ids]

/-- C1: for every path the channel can receive, `is_subvolume` returns
`Ok(true)` when the channel reports OK, `Ok(false)` when it reports
NOT_SUBVOLUME or NOT_BTRFS, and `Err` carrying exactly the channel's
code for every other non-OK code. -/
theorem is_subvolume_conflation (ch : FfiChannel) (path : PathBytes) (h : 0 ∉ path) :
    (ch.btrfs_util_is_subvolume path = ffi.BTRFS_UTIL_OK →
      is_subvolume ch path = some (Except.ok true)) ∧
    ((ch.btrfs_util_is_subvolume path = ffi.BTRFS_UTIL_ERROR_NOT_SUBVOLUME ∨
      ch.btrfs_util_is_subvolume path = ffi.BTRFS_UTIL_ERROR_NOT_BTRFS) →
      is_subvolume ch path = some (Except.ok false)) ∧
    (∀ c, ch.btrfs_util_is_subvolume path = c →
      c ≠ ffi.BTRFS_UTIL_OK →
      c ≠ ffi.BTRFS_UTIL_ERROR_NOT_SUBVOLUME →
      c ≠ ffi.BTRFS_UTIL_ERROR_NOT_BTRFS →
      is_subvolume ch path = some (Except.error (Error.new c))) := by
  have hc : cstring_new path = some path := by simp [cstring_new, h]
  refine ⟨fun h0 => ?_, fun h01 => ?_, fun c hcode h0 h5 h4 => ?_⟩
  · simp [is_subvolume, hc, h0]
  · rcases h01 with h5 | h4
    · simp [is_subvolume, hc, h5, ffi.BTRFS_UTIL_OK, ffi.BTRFS_UTIL_ERROR_NOT_SUBVOLUME]
    · simp [is_subvolume, hc, h4, ffi.BTRFS_UTIL_OK, ffi.BTRFS_UTIL_ERROR_NOT_SUBVOLUME,
        ffi.BTRFS_UTIL_ERROR_NOT_BTRFS]
  · simp [is_subvolume, hc, hcode, h0, h5, h4]

/-- Witness for C1: a channel reporting NOT_SUBVOLUME (code 5) makes
`is_subvolume` return `Ok(false)` on the path "a". -/
theorem is_subvolume_conflation_witness :
    is_subvolume (constChannel 5) [97] = some (Except.ok false) :=
  (is_subvolume_conflation (constChannel 5) [97] (by decide)).2.1 (Or.inl rfl)

/-- C8: every top-level operation other than `is_subvolume` returns `Ok`
exactly when the channel status is OK and otherwise returns `Err`
carrying the channel's code unchanged (`sync`, `subvolume_id`,
`subvolume_info_with_id`, `subvolume_read_only`,
`set_subvolume_read_only`, `delete_subvolume`, `create_subvolume`,
`create_snapshot`). -/
theorem operations_propagate_channel_status (ch : FfiChannel) (source path : PathBytes)
    (subvolumeId : Nat) (read_only : Bool) (dflags : DeleteSubvolumeFlags)
    (cflags : CreateSubvolumeFlags) (sflags : CreateSnapshotFlags)
    (qgroup : Option QgroupInherit) (hs : 0 ∉ source) (hp : 0 ∉ path) :
    sync ch path =
      some (if ch.btrfs_util_sync path = ffi.BTRFS_UTIL_OK then Except.ok ()
        else Except.error (Error.new (ch.btrfs_util_sync path))) ∧
    subvolume_id ch path =
      some (if (ch.btrfs_util_subvolume_id path).1 = ffi.BTRFS_UTIL_OK
        then Except.ok (ch.btrfs_util_subvolume_id path).2
        else Except.error (Error.new (ch.btrfs_util_subvolume_id path).1)) ∧
    subvolume_info_with_id ch path subvolumeId =
      some (if (ch.btrfs_util_subvolume_info path subvolumeId).1 = ffi.BTRFS_UTIL_OK
        then Except.ok (ch.btrfs_util_subvolume_info path subvolumeId).2
        else Except.error (Error.new (ch.btrfs_util_subvolume_info path subvolumeId).1)) ∧
    subvolume_read_only ch path =
      some (if (ch.btrfs_util_get_subvolume_read_only path).1 = ffi.BTRFS_UTIL_OK
        then Except.ok (ch.btrfs_util_get_subvolume_read_only path).2
        else Except.error (Error.new (ch.btrfs_util_get_subvolume_read_only path).1)) ∧
    set_subvolume_read_only ch path read_only =
      some (if ch.btrfs_util_set_subvolume_read_only path read_only = ffi.BTRFS_UTIL_OK
        then Except.ok ()
        else Except.error (Error.new (ch.btrfs_util_set_subvolume_read_only path read_only))) ∧
    delete_subvolume ch path dflags =
      some (if ch.btrfs_util_delete_subvolume path dflags.bits = ffi.BTRFS_UTIL_OK
        then Except.ok ()
        else Except.error (Error.new (ch.btrfs_util_delete_subvolume path dflags.bits))) ∧
    create_subvolume ch path cflags qgroup =
      some (if ch.btrfs_util_create_subvolume path cflags.bits
          (qgroup.map QgroupInherit.serialize) = ffi.BTRFS_UTIL_OK
        then Except.ok ()
        else Except.error (Error.new (ch.btrfs_util_create_subvolume path cflags.bits
          (qgroup.map QgroupInherit.serialize)))) ∧
    create_snapshot ch source path sflags qgroup =
      some (if ch.btrfs_util_create_snapshot source path sflags.bits
          (qgroup.map QgroupInherit.serialize) = ffi.BTRFS_UTIL_OK
        then Except.ok ()
        else Except.error (Error.new (ch.btrfs_util_create_snapshot source path sflags.bits
          (qgroup.map QgroupInherit.serialize)))) := by
  have hcs : cstring_new source = some source := by simp [cstring_new, hs]
  have hcp : cstring_new path = some path := by simp [cstring_new, hp]
  refine ⟨?_, ?_, ?_, ?_, ?_, ?_, ?_, ?_⟩
  · simp [sync, hcp]
  · simp [subvolume_id, hcp]
  · simp only [subvolume_info_with_id, hcp, Option.map_some', ne_eq, ite_not]
  · simp [subvolume_read_only, hcp]
  · simp [set_subvolume_read_only, hcp]
  · simp only [delete_subvolume, hcp, Option.map_some', ne_eq, ite_not]
  · simp only [create_subvolume, hcp, Option.map_some', ne_eq, ite_not]
  · simp only [create_snapshot, hcs, hcp, Option.bind_some, Option.some_bind, bind,
      ne_eq, ite_not]
    split <;> rfl

/-- Witness for C8: a channel whose every status is SYNC_FAILED (code 20)
makes `sync` return `Err` with code 20. -/
theorem operations_propagate_channel_status_witness :
    sync (constChannel 20) [97] = some (Except.error (Error.new 20)) := by
  rw [(operations_propagate_channel_status (constChannel 20) [98] [97] 0 true
    ⟨0⟩ ⟨0⟩ ⟨0⟩ none (by decide) (by decide)).1]
  rfl

/-- Counterexample to C7: on the path consisting of a single NUL byte,
`sync` ends in the panic outcome (`none`, the model of
`CString::new(...).unwrap()` panicking), not in any returned
success-or-error outcome (`some _`); so the rejection is not "reported
as a returned error outcome rather than a panic" as claimed. -/
theorem nul_path_panic_counterexample :
    sync (constChannel 0) [0] = none :=
  rfl

/-- C7 (amended): for every path-taking operation and every path with an
embedded NUL byte, the path is rejected before any control-channel
request is issued — the result is the same for every channel `ch` —
but the rejection is a panic (the `none` outcome), not a returned
error. -/
theorem nul_path_rejected_before_channel (ch : FfiChannel) (source path : PathBytes)
    (subvolumeId : Nat) (read_only : Bool) (dflags : DeleteSubvolumeFlags)
    (cflags : CreateSubvolumeFlags) (sflags : CreateSnapshotFlags)
    (qgroup : Option QgroupInherit) (h : 0 ∈ path) :
    sync ch path = none ∧
    is_subvolume ch path = none ∧
    subvolume_id ch path = none ∧
    subvolume_info_with_id ch path subvolumeId = none ∧
    subvolume_read_only ch path = none ∧
    set_subvolume_read_only ch path read_only = none ∧
    delete_subvolume ch path dflags = none ∧
    create_subvolume ch path cflags qgroup = none ∧
    create_snapshot ch path source sflags qgroup = none ∧
    create_snapshot ch source path sflags qgroup = none := by
  have hc : cstring_new path = none := by simp [cstring_new, h]
  refine ⟨?_, ?_, ?_, ?_, ?_, ?_, ?_, ?_, ?_, ?_⟩
  · simp [sync, hc]
  · simp [is_subvolume, hc]
  · simp [subvolume_id, hc]
  · simp [subvolume_info_with_id, hc]
  · simp [subvolume_read_only, hc]
  · simp [set_subvolume_read_only, hc]
  · simp [delete_subvolume, hc]
  · simp [create_subvolume, hc]
  · simp [create_snapshot, hc]
  · by_cases hsrc : 0 ∈ source <;> simp [create_snapshot, cstring_new, hsrc, h]

/-- Witness for C7 (amended): instantiated at the single-NUL-byte path. -/
theorem nul_path_rejected_before_channel_witness :
    sync (constChannel 3) [0] = none :=
  (nul_path_rejected_before_channel (constChannel 3) [97] [0] 0 true
    ⟨0⟩ ⟨0⟩ ⟨0⟩ none (by decide)).1

/-- Helper: a terminal session (exhausted or failed) yields nothing on
every further pull. -/
theorem pulls_terminal (fuel : Nat) (it : SubvolumeIterator) (h : it.mode ≠ .active) :
    pulls fuel it = List.replicate fuel none := by
  induction fuel generalizing it with
  | zero => rfl
  | succ n ih =>
    cases hm : it.mode with
    | active => exact absurd hm h
    | exhausted =>
      have hnext : it.next = (none, it) := by simp [SubvolumeIterator.next, hm]
      simp [pulls, hnext, ih it h, List.replicate_succ]
    | failed =>
      have hnext : it.next = (none, it) := by simp [SubvolumeIterator.next, hm]
      simp [pulls, hnext, ih it h, List.replicate_succ]

/-- Helper: buffered records are handed out one per pull, in order. -/
theorem pulls_pending (rs : List SubvolumePathRecord) (n : Nat) (script : List BatchReply) :
    pulls (rs.length + n) ⟨rs, script, .active⟩ =
      rs.map (fun r => some (Except.ok r)) ++ pulls n ⟨[], script, .active⟩ := by
  induction rs with
  | nil => simp
  | cons r rs ih =>
    have harith : (r :: rs).length + n = (rs.length + n) + 1 := by
      simp [Nat.succ_add]
    rw [harith]
    have hnext : (SubvolumeIterator.mk (r :: rs) script .active).next =
        (some (Except.ok r), ⟨rs, script, .active⟩) := rfl
    simp [pulls, hnext, ih]

/-- Helper: a run of non-empty record batches is pulled as the
concatenation of its records, after which the session continues with the
rest of the script. -/
theorem pulls_batches (batches : List (List SubvolumePathRecord)) (rest : List BatchReply)
    (h : ∀ b ∈ batches, b ≠ []) (n : Nat) :
    pulls (fuelOf batches + n) ⟨[], batches.map BatchReply.records ++ rest, .active⟩ =
      batches.flatten.map (fun r => some (Except.ok r)) ++ pulls n ⟨[], rest, .active⟩ := by
  induction batches with
  | nil => simp [fuelOf]
  | cons b bs ih =>
    obtain ⟨r, rs, rfl⟩ : ∃ r rs, b = r :: rs := by
      cases b with
      | nil => exact absurd rfl (h [] (by simp))
      | cons r rs => exact ⟨r, rs, rfl⟩
    have harith : fuelOf ((r :: rs) :: bs) + n = (rs.length + (fuelOf bs + n)) + 1 := by
      simp [fuelOf]
      omega
    rw [harith]
    have hnext : (SubvolumeIterator.mk []
        (BatchReply.records (r :: rs) :: (bs.map BatchReply.records ++ rest)) .active).next =
        (some (Except.ok r), ⟨rs, bs.map BatchReply.records ++ rest, .active⟩) := rfl
    simp only [List.map_cons, List.cons_append, pulls, hnext]
    rw [pulls_pending rs (fuelOf bs + n) (bs.map BatchReply.records ++ rest),
      ih (fun b hb => h b (by simp [hb]))]
    simp

/-- Helper: buffered records are drained into the accumulator in order. -/
theorem drainAux_pending (rs : List SubvolumePathRecord) (n : Nat) (script : List BatchReply)
    (acc : List SubvolumePathRecord) :
    drainAux (rs.length + n) ⟨rs, script, .active⟩ acc =
      drainAux n ⟨[], script, .active⟩ (acc ++ rs) := by
  induction rs generalizing acc with
  | nil => simp
  | cons r rs ih =>
    have harith : (r :: rs).length + n = (rs.length + n) + 1 := by
      simp [Nat.succ_add]
    rw [harith]
    have hnext : (SubvolumeIterator.mk (r :: rs) script .active).next =
        (some (Except.ok r), ⟨rs, script, .active⟩) := rfl
    simp [drainAux, hnext, ih]

/-- Helper: a run of non-empty record batches is drained into the
accumulator as the concatenation of its records. -/
theorem drainAux_batches (batches : List (List SubvolumePathRecord)) (rest : List BatchReply)
    (h : ∀ b ∈ batches, b ≠ []) (n : Nat) (acc : List SubvolumePathRecord) :
    drainAux (fuelOf batches + n) ⟨[], batches.map BatchReply.records ++ rest, .active⟩ acc =
      drainAux n ⟨[], rest, .active⟩ (acc ++ batches.flatten) := by
  induction batches generalizing acc with
  | nil => simp [fuelOf]
  | cons b bs ih =>
    obtain ⟨r, rs, rfl⟩ : ∃ r rs, b = r :: rs := by
      cases b with
      | nil => exact absurd rfl (h [] (by simp))
      | cons r rs => exact ⟨r, rs, rfl⟩
    have harith : fuelOf ((r :: rs) :: bs) + n = (rs.length + (fuelOf bs + n)) + 1 := by
      simp [fuelOf]
      omega
    rw [harith]
    have hnext : (SubvolumeIterator.mk []
        (BatchReply.records (r :: rs) :: (bs.map BatchReply.records ++ rest)) .active).next =
        (some (Except.ok r), ⟨rs, bs.map BatchReply.records ++ rest, .active⟩) := rfl
    simp only [List.map_cons, List.cons_append, drainAux, hnext]
    rw [drainAux_pending rs (fuelOf bs + n) (bs.map BatchReply.records ++ rest) (acc ++ [r]),
      ih (fun b hb => h b (by simp [hb]))]
    simp

/-- C3: for every sequence of non-empty batches followed by an empty
reply or STOP_ITERATION, the eager drain yields exactly the batches'
records concatenated in the channel's order with no error, and the lazy
pull form yields exactly those records followed by end-of-sequence on
every further pull. -/
theorem enumeration_drain_in_order (batches : List (List SubvolumePathRecord))
    (term : BatchReply) (hne : ∀ b ∈ batches, b ≠ [])
    (hterm : term = BatchReply.records [] ∨
      term = BatchReply.failure ffi.BTRFS_UTIL_ERROR_STOP_ITERATION) (m : Nat) :
    drain (fuelOf batches + 1 + m) (batches.map BatchReply.records ++ [term]) =
      some (Except.ok batches.flatten) ∧
    pulls (fuelOf batches + 1 + m)
        (SubvolumeIterator.start (batches.map BatchReply.records ++ [term])) =
      batches.flatten.map (fun r => some (Except.ok r)) ++ List.replicate (1 + m) none := by
  have harith : fuelOf batches + 1 + m = fuelOf batches + (1 + m) := by omega
  have h1m : 1 + m = m + 1 := by omega
  constructor
  · unfold drain SubvolumeIterator.start
    rw [harith, drainAux_batches batches [term] hne (1 + m) []]
    rcases hterm with ht | ht <;> subst ht <;>
      simp [h1m, drainAux, SubvolumeIterator.next]
  · unfold SubvolumeIterator.start
    rw [harith, pulls_batches batches [term] hne (1 + m)]
    rcases hterm with ht | ht <;> subst ht
    · have hnext : (SubvolumeIterator.mk [] [BatchReply.records []] .active).next =
          (none, ⟨[], [], .exhausted⟩) := rfl
      simp [h1m, pulls, hnext, pulls_terminal, List.replicate_succ]
    · have hnext : (SubvolumeIterator.mk []
          [BatchReply.failure ffi.BTRFS_UTIL_ERROR_STOP_ITERATION] .active).next =
          (none, ⟨[], [], .exhausted⟩) := rfl
      simp [h1m, pulls, hnext, pulls_terminal, List.replicate_succ]

/-- Witness for C3: the batches [(1,"a"),(2,"b")] then [(3,"c")] then an
empty reply drain to exactly [(1,"a"),(2,"b"),(3,"c")] with no error. -/
theorem enumeration_drain_in_order_witness :
    drain 4 [BatchReply.records [egRecA, egRecB], BatchReply.records [egRecC],
        BatchReply.records []] =
      some (Except.ok [egRecA, egRecB, egRecC]) := by
  have h := (enumeration_drain_in_order [[egRecA, egRecB], [egRecC]]
    (BatchReply.records []) (by decide) (Or.inl rfl) 0).1
  simpa [fuelOf] using h

/-- C2: when the channel reports an error other than STOP_ITERATION, the
lazy pull form yields the earlier batches' records normally, surfaces
that error exactly once, and reports end-of-sequence on every further
pull; the eager drain reports that error with no partial list. -/
theorem enumeration_error_once (batches : List (List SubvolumePathRecord)) (e : Nat)
    (rest : List BatchReply) (hne : ∀ b ∈ batches, b ≠ [])
    (he : e ≠ ffi.BTRFS_UTIL_ERROR_STOP_ITERATION) (m : Nat) :
    pulls (fuelOf batches + 1 + m)
        (SubvolumeIterator.start (batches.map BatchReply.records ++ BatchReply.failure e :: rest)) =
      batches.flatten.map (fun r => some (Except.ok r)) ++
        some (Except.error (Error.new e)) :: List.replicate m none ∧
    drain (fuelOf batches + 1 + m)
        (batches.map BatchReply.records ++ BatchReply.failure e :: rest) =
      some (Except.error (Error.new e)) := by
  have harith : fuelOf batches + 1 + m = fuelOf batches + (1 + m) := by omega
  have h1m : 1 + m = m + 1 := by omega
  have hnext : (SubvolumeIterator.mk [] (BatchReply.failure e :: rest) .active).next =
      (some (Except.error (Error.new e)), ⟨[], rest, .failed⟩) := by
    simp [SubvolumeIterator.next, he]
  constructor
  · unfold SubvolumeIterator.start
    rw [harith, pulls_batches batches (BatchReply.failure e :: rest) hne (1 + m)]
    simp [h1m, pulls, hnext, pulls_terminal]
  · unfold drain SubvolumeIterator.start
    rw [harith, drainAux_batches batches (BatchReply.failure e :: rest) hne (1 + m) []]
    simp [h1m, drainAux, hnext]

/-- Witness for C2: one batch [(1,"a"),(2,"b")] then SEARCH_FAILED
(code 12): the lazy pulls yield the two records, then the one error,
then end-of-sequence; the eager drain reports only the error. -/
theorem enumeration_error_once_witness :
    pulls 4 (SubvolumeIterator.start
        [BatchReply.records [egRecA, egRecB], BatchReply.failure 12]) =
      [some (Except.ok egRecA), some (Except.ok egRecB),
        some (Except.error (Error.new 12)), none] ∧
    drain 4 [BatchReply.records [egRecA, egRecB], BatchReply.failure 12] =
      some (Except.error (Error.new 12)) := by
  have h := enumeration_error_once [[egRecA, egRecB]] 12 [] (by decide) (by decide) 1
  constructor
  · have h1 := h.1
    simpa [fuelOf] using h1
  · have h2 := h.2
    simpa [fuelOf] using h2

end LibBtrfsUtil
